import Mathlib

/-!
# Verification of the christmas-tree gesture and morph pipeline

Shallow embedding of the state-driven particle morphing and gesture-control
pipeline of `src/App.tsx`: the three-finger pinch test, the edge-triggered
pinch state machine, the discrete gesture mapping, the rotation deadzone,
the photo-overlay single-flight guard, the delegate fallback in recognizer
setup, and the per-frame position interpolation of the animated categories.

JavaScript numbers appearing in the gesture pipeline are modelled as exact
rationals; the animation and geometry are modelled over the reals.
-/

namespace ChristmasTree

/-! ## Gesture signal processor: data and geometric pinch test -/

/-- A single hand landmark in normalized coordinates, as consumed by
`getDistance` / `detectThreeFingerPinch`. Coordinates are exact rationals. -/
structure Landmark where
  x : ℚ
  y : ℚ
  z : ℚ
deriving DecidableEq

/-- The fixed pinch threshold `0.08` from `detectThreeFingerPinch`. -/
def pinchThreshold : ℚ := 8 / 100

/-- `getDistance` from App.tsx: Euclidean distance between two landmarks,
`Math.sqrt((x1-x2)^2 + (y1-y2)^2 + (z1-z2)^2)`. -/
noncomputable def getDistance (p1 p2 : Landmark) : ℝ :=
  Real.sqrt (((p1.x - p2.x : ℚ) : ℝ) ^ 2 + ((p1.y - p2.y : ℚ) : ℝ) ^ 2 +
    ((p1.z - p2.z : ℚ) : ℝ) ^ 2)

/-- Rational squared distance between two landmarks (for decidability). -/
def distSq (p1 p2 : Landmark) : ℚ :=
  (p1.x - p2.x) ^ 2 + (p1.y - p2.y) ^ 2 + (p1.z - p2.z) ^ 2

lemma getDistance_eq_sqrt_distSq (p1 p2 : Landmark) :
    getDistance p1 p2 = Real.sqrt ((distSq p1 p2 : ℚ) : ℝ) := by
  unfold getDistance distSq
  push_cast
  ring_nf

lemma getDistance_lt_iff (p1 p2 : Landmark) (t : ℚ) (ht : 0 < t) :
    getDistance p1 p2 < (t : ℝ) ↔ distSq p1 p2 < t ^ 2 := by
  rw [getDistance_eq_sqrt_distSq, Real.sqrt_lt' (by exact_mod_cast ht)]
  exact_mod_cast Iff.rfl

/-- `detectThreeFingerPinch` from App.tsx: landmark 4 is the thumb tip,
8 the index tip, 12 the middle tip; pinch holds when all three pairwise
`getDistance` values are strictly below `pinchThreshold`. -/
def detectThreeFingerPinch (landmarks : ℕ → Landmark) : Prop :=
  getDistance (landmarks 4) (landmarks 8) < (pinchThreshold : ℝ) ∧
  getDistance (landmarks 4) (landmarks 12) < (pinchThreshold : ℝ) ∧
  getDistance (landmarks 8) (landmarks 12) < (pinchThreshold : ℝ)

instance (landmarks : ℕ → Landmark) : Decidable (detectThreeFingerPinch landmarks) :=
  decidable_of_iff
    (distSq (landmarks 4) (landmarks 8) < pinchThreshold ^ 2 ∧
     distSq (landmarks 4) (landmarks 12) < pinchThreshold ^ 2 ∧
     distSq (landmarks 8) (landmarks 12) < pinchThreshold ^ 2)
    (by
      unfold detectThreeFingerPinch
      rw [getDistance_lt_iff _ _ _ (by norm_num [pinchThreshold]),
        getDistance_lt_iff _ _ _ (by norm_num [pinchThreshold]),
        getDistance_lt_iff _ _ _ (by norm_num [pinchThreshold])])

lemma detectThreeFingerPinch_iff_distSq (landmarks : ℕ → Landmark) :
    detectThreeFingerPinch landmarks ↔
      (distSq (landmarks 4) (landmarks 8) < pinchThreshold ^ 2 ∧
       distSq (landmarks 4) (landmarks 12) < pinchThreshold ^ 2 ∧
       distSq (landmarks 8) (landmarks 12) < pinchThreshold ^ 2) := by
  unfold detectThreeFingerPinch
  rw [getDistance_lt_iff _ _ _ (by norm_num [pinchThreshold]),
    getDistance_lt_iff _ _ _ (by norm_num [pinchThreshold]),
    getDistance_lt_iff _ _ _ (by norm_num [pinchThreshold])]

/-! ## Pinch edge detection (isPinchingRef state machine) -/

/-- One frame of the pinch edge detector from `predictWebcam`: given the
stored `isPinchingRef` value and the freshly evaluated pinch boolean,
returns the new stored value and the emitted `onPinch` event (if any). -/
def pinchStep (isPinchingRef : Bool) (isPinching : Bool) : Bool × Option Bool :=
  if isPinching && !isPinchingRef then (true, some true)
  else if !isPinching && isPinchingRef then (false, some false)
  else (isPinchingRef, none)

/-- The per-frame `onPinch` events produced by running `pinchStep` over a
sequence of evaluated pinch booleans, starting from stored state `r`. -/
def pinchEvents (r : Bool) : List Bool → List (Option Bool)
  | [] => []
  | b :: bs => (pinchStep r b).2 :: pinchEvents (pinchStep r b).1 bs

/-- The stored `isPinchingRef` value just before each frame is processed. -/
def pinchStates (r : Bool) : List Bool → List Bool
  | [] => []
  | b :: bs => r :: pinchStates (pinchStep r b).1 bs

lemma pinchStep_eq (r b : Bool) :
    pinchStep r b = (b, if r = b then none else some b) := by
  cases r <;> cases b <;> simp [pinchStep]

lemma pinchEvents_length (r : Bool) (bs : List Bool) :
    (pinchEvents r bs).length = bs.length := by
  induction bs generalizing r with
  | nil => rfl
  | cons b bs ih => simp [pinchEvents, ih]

lemma pinchStates_length (r : Bool) (bs : List Bool) :
    (pinchStates r bs).length = bs.length := by
  induction bs generalizing r with
  | nil => rfl
  | cons b bs ih => simp [pinchStates, ih]

/-! ## Discrete gesture mapping and rotation control -/

/-- The two scene modes. -/
inductive SceneMode where
  | CHAOS
  | FORMED
deriving DecidableEq, Repr

/-- The scene-mode command emitted by the discrete gesture branch of
`predictWebcam`: the top classification (label and score) is consulted only
when present; a command fires only when `score > 0.4` and no pinch is
active; `Open_Palm` maps to CHAOS and `Closed_Fist` to FORMED. -/
def gestureCommand (isPinching : Bool) (topGesture : Option (String × ℚ)) :
    Option SceneMode :=
  match topGesture with
  | none => none
  | some (name, score) =>
    if (4 / 10 : ℚ) < score ∧ isPinching = false then
      if name = "Open_Palm" then some SceneMode.CHAOS
      else if name = "Closed_Fist" then some SceneMode.FORMED
      else none
    else none

/-- The raw rotation speed derived from the wrist landmark:
`(0.5 - landmarks[0].x) * 0.15`. -/
def rotationSpeedOf (wristX : ℚ) : ℚ := (1 / 2 - wristX) * (15 / 100)

/-- The value passed to `onMove` on a hand frame:
`Math.abs(speed) > 0.01 ? speed : 0`. -/
def emittedMove (wristX : ℚ) : ℚ :=
  if 1 / 100 < |rotationSpeedOf wristX| then rotationSpeedOf wristX else 0

/-! ## The processed frame -/

/-- The data of a detected hand on one processed frame: its landmark set and
(optionally) the top gesture classification `results.gestures[0][0]`. -/
structure HandFrame where
  landmarks : ℕ → Landmark
  topGesture : Option (String × ℚ)

/-- The outputs of one processed frame of `predictWebcam`. -/
structure FrameOutput where
  pinchState : Bool
  pinchEvent : Option Bool
  modeCommand : Option SceneMode
  move : ℚ
deriving DecidableEq

/-- One processed frame of `predictWebcam` (lines handling
`results.landmarks`): with a detected hand, the pinch test is evaluated,
the edge detector may emit an `onPinch` event, the discrete gesture mapping
may emit a mode command, and `onMove` receives the deadzone-filtered speed;
with no hand, `onMove(0)` and nothing else. -/
def processFrame (isPinchingRef : Bool) (result : Option HandFrame) : FrameOutput :=
  match result with
  | none => ⟨isPinchingRef, none, none, 0⟩
  | some hf =>
    let isPinching : Bool := decide (detectThreeFingerPinch hf.landmarks)
    let s := pinchStep isPinchingRef isPinching
    { pinchState := s.1
      pinchEvent := s.2
      modeCommand := gestureCommand isPinching hf.topGesture
      move := emittedMove (hf.landmarks 0).x }

/-! ## Photo selection / overlay -/

/-- `TOTAL_NUMBERED_PHOTOS` from App.tsx. -/
def TOTAL_NUMBERED_PHOTOS : ℕ := 8

/-- `bodyPhotoPaths` from App.tsx: `top.jpg` followed by `1.jpg` .. `8.jpg`. -/
def bodyPhotoPaths : List String :=
  "/photos/top.jpg" ::
    (List.range TOTAL_NUMBERED_PHOTOS).map (fun i => "/photos/" ++ toString (i + 1) ++ ".jpg")

/-- The random photo index `Math.floor(Math.random() * PHOTO_PATHS.body.length)`
as a function of the uniform draw `r ∈ [0,1)`. -/
def randomPhotoIndex (r : ℚ) : ℕ := ⌊r * (bodyPhotoPaths.length : ℚ)⌋₊

/-- `handlePinch` from App.tsx: on PINCH_START with no photo displayed, select
a random photo; on PINCH_END with a photo displayed, close it; otherwise do
nothing. `r` is the uniform draw used by the selection. -/
def handlePinch (isPinching : Bool) (r : ℚ) (selectedPhoto : Option String) :
    Option String :=
  if isPinching = true ∧ selectedPhoto = none then
    some (bodyPhotoPaths.getD (randomPhotoIndex r) "")
  else if isPinching = false ∧ selectedPhoto ≠ none then
    none
  else selectedPhoto

/-- The selected-photo state after one processed frame: `handlePinch` runs
exactly when the frame emitted an `onPinch` event. -/
def overlayAfter (selectedPhoto : Option String) (pinchEvent : Option Bool)
    (r : ℚ) : Option String :=
  match pinchEvent with
  | none => selectedPhoto
  | some b => handlePinch b r selectedPhoto

/-! ## Recognizer setup with delegate fallback -/

/-- MediaPipe hardware delegates. -/
inductive Delegate where
  | GPU
  | CPU
deriving DecidableEq, Repr

/-- The recognizer-creation part of `setup` in `GestureController`: try the
preferred delegate; if it fails and the preferred delegate was GPU, retry
with CPU; the outer catch reports an error status only when the remaining
attempt fails. Creation outcomes are given by `create` (`none` = the
creation threw). Returns the recognizer (if any), the list of delegates
attempted in order, and whether an error status was reported. -/
def setupRecognizer (preferred : Delegate) (create : Delegate → Option ℕ) :
    Option ℕ × List Delegate × Bool :=
  match create preferred with
  | some rec => (some rec, [preferred], false)
  | none =>
    match preferred with
    | Delegate.GPU =>
      match create Delegate.CPU with
      | some rec => (some rec, [Delegate.GPU, Delegate.CPU], false)
      | none => (none, [Delegate.GPU, Delegate.CPU], true)
    | Delegate.CPU => (none, [Delegate.CPU], true)

/-! ## The landmark point as a Euclidean point (for the pinch-geometry claim) -/

/-- A landmark viewed as a point of real 3-dimensional Euclidean space. -/
noncomputable def landmarkPoint (p : Landmark) : EuclideanSpace ℝ (Fin 3) :=
  ![(p.x : ℝ), (p.y : ℝ), (p.z : ℝ)]

lemma getDistance_eq_dist (p q : Landmark) :
    getDistance p q = dist (landmarkPoint p) (landmarkPoint q) := by
  rw [EuclideanSpace.dist_eq]
  unfold getDistance landmarkPoint
  push_cast
  simp [Fin.sum_univ_three, Real.dist_eq, sq_abs]

/-! ## Claim theorems (gesture pipeline) -/

/-- C1: pinch edge detection is exactly-once per transition: running the
gesture loop over any sequence of per-frame pinch booleans, the event at
frame `i` is a PINCH_START (`some true`) or PINCH_END (`some false`)
exactly when the evaluated boolean differs from the stored `PinchState`
before that frame, and no event is emitted when they agree; the sequence
`[F,F,T,T,T,F,F]` yields exactly one PINCH_START at index 2 and one
PINCH_END at index 5. -/
theorem pinch_edge_exactly_once (r0 : Bool) (bs : List Bool) (i : ℕ)
    (hi : i < bs.length) :
    (pinchEvents r0 bs).getD i none =
      (if (pinchStates r0 bs).getD i false = bs.getD i false then none
       else some (bs.getD i false)) ∧
    pinchEvents false [false, false, true, true, true, false, false] =
      [none, none, some true, none, none, some false, none] := by
  constructor
  · induction bs generalizing r0 i with
    | nil => simp at hi
    | cons b bs ih =>
      cases i with
      | zero => simp [pinchEvents, pinchStates, pinchStep_eq]
      | succ i =>
        have hi' : i < bs.length := by simpa using hi
        simpa [pinchEvents, pinchStates] using ih (pinchStep r0 b).1 i hi'
  · decide

theorem pinch_edge_exactly_once_witness :
    2 < ([false, false, true, true, true, false, false] : List Bool).length ∧
    ((pinchEvents false [false, false, true, true, true, false, false]).getD 2 none =
      (if (pinchStates false [false, false, true, true, true, false, false]).getD 2 false =
          ([false, false, true, true, true, false, false] : List Bool).getD 2 false then none
       else some (([false, false, true, true, true, false, false] : List Bool).getD 2 false)) ∧
      pinchEvents false [false, false, true, true, true, false, false] =
        [none, none, some true, none, none, some false, none]) :=
  ⟨by decide, pinch_edge_exactly_once false _ 2 (by decide)⟩

/-- C2: `detectThreeFingerPinch` holds on a landmark set if and only if all
three pairwise Euclidean distances between landmark 4 (thumb tip),
landmark 8 (index tip) and landmark 12 (middle tip) are strictly below the
fixed threshold 0.08 in normalized landmark coordinate space. -/
theorem detectThreeFingerPinch_iff (lm : ℕ → Landmark) :
    detectThreeFingerPinch lm ↔
      (dist (landmarkPoint (lm 4)) (landmarkPoint (lm 8)) < 0.08 ∧
       dist (landmarkPoint (lm 4)) (landmarkPoint (lm 12)) < 0.08 ∧
       dist (landmarkPoint (lm 8)) (landmarkPoint (lm 12)) < 0.08) := by
  unfold detectThreeFingerPinch
  rw [getDistance_eq_dist, getDistance_eq_dist, getDistance_eq_dist]
  norm_num [pinchThreshold]

/-- C3: discrete gesture mapping: with no active pinch and top-classification
confidence strictly above 0.4, label `Open_Palm` yields the CHAOS command
and `Closed_Fist` the FORMED command while other labels yield none; a
confidence not exceeding 0.4 yields no command; an active pinch suppresses
every command; confidence 0.39 for `Open_Palm` yields none and 0.41 yields
CHAOS. -/
theorem discrete_gesture_mapping :
    (∀ (name : String) (score : ℚ), 4 / 10 < score →
      gestureCommand false (some (name, score)) =
        if name = "Open_Palm" then some SceneMode.CHAOS
        else if name = "Closed_Fist" then some SceneMode.FORMED
        else none) ∧
    (∀ (name : String) (score : ℚ), score ≤ 4 / 10 →
      gestureCommand false (some (name, score)) = none) ∧
    (∀ g, gestureCommand true g = none) ∧
    (∀ (r : Bool) (hf : HandFrame), (processFrame r (some hf)).modeCommand =
      gestureCommand (decide (detectThreeFingerPinch hf.landmarks)) hf.topGesture) ∧
    gestureCommand false (some ("Open_Palm", 39 / 100)) = none ∧
    gestureCommand false (some ("Open_Palm", 41 / 100)) = some SceneMode.CHAOS := by
  refine ⟨?_, ?_, ?_, ?_, ?_, ?_⟩
  · intro name score h
    simp [gestureCommand, h]
  · intro name score h
    simp [gestureCommand, not_lt.mpr h]
  · intro g
    rcases g with _ | ⟨name, score⟩ <;> simp [gestureCommand]
  · intro r hf
    rfl
  · norm_num [gestureCommand]
  · norm_num [gestureCommand]

theorem discrete_gesture_mapping_witness :
    ((4 / 10 : ℚ) < 1 / 2 ∧
      gestureCommand false (some ("Open_Palm", 1 / 2)) =
        if "Open_Palm" = "Open_Palm" then some SceneMode.CHAOS
        else if "Open_Palm" = "Closed_Fist" then some SceneMode.FORMED
        else none) ∧
    ((1 / 10 : ℚ) ≤ 4 / 10 ∧
      gestureCommand false (some ("Victory", 1 / 10)) = none) :=
  ⟨⟨by norm_num, discrete_gesture_mapping.1 "Open_Palm" (1 / 2) (by norm_num)⟩,
   ⟨by norm_num, discrete_gesture_mapping.2.1 "Victory" (1 / 10) (by norm_num)⟩⟩

/-- C7 counterexample: at wrist x = 13/30 the derived speed is exactly 0.01,
whose magnitude does not fall below the deadzone threshold 0.01, yet the
code emits 0 rather than the (nonzero) derived speed — refuting the claim
that only magnitudes strictly below 0.01 are clamped. -/
theorem rotation_deadzone_counterexample :
    rotationSpeedOf (13 / 30) = 1 / 100 ∧
    ¬ |rotationSpeedOf (13 / 30)| < 1 / 100 ∧
    emittedMove (13 / 30) = 0 ∧
    rotationSpeedOf (13 / 30) ≠ 0 := by
  have h : rotationSpeedOf (13 / 30) = 1 / 100 := by norm_num [rotationSpeedOf]
  have habs : |rotationSpeedOf (13 / 30)| = 1 / 100 := by
    rw [h, abs_of_nonneg (by norm_num)]
  refine ⟨h, by rw [habs]; norm_num, ?_, by rw [h]; norm_num⟩
  unfold emittedMove
  rw [if_neg (by rw [habs]; norm_num)]

/-- C7 (amended): on a hand frame the emitted rotation speed equals
`(0.5 - wrist.x) * 0.15` when that value's magnitude strictly exceeds 0.01
and is exactly 0 when the magnitude is at most 0.01 (the deadzone is
inclusive at 0.01); on a no-hand frame the emitted speed is exactly 0; a
derived speed of 0.009 clamps to 0 and 0.011 passes through unclamped. -/
theorem rotation_deadzone_amended :
    (∀ x : ℚ, 1 / 100 < |rotationSpeedOf x| → emittedMove x = rotationSpeedOf x) ∧
    (∀ x : ℚ, |rotationSpeedOf x| ≤ 1 / 100 → emittedMove x = 0) ∧
    (∀ r : Bool, (processFrame r none).move = 0) ∧
    (∀ (r : Bool) (hf : HandFrame),
      (processFrame r (some hf)).move = emittedMove (hf.landmarks 0).x) ∧
    rotationSpeedOf (11 / 25) = 9 / 1000 ∧ emittedMove (11 / 25) = 0 ∧
    rotationSpeedOf (32 / 75) = 11 / 1000 ∧ emittedMove (32 / 75) = 11 / 1000 := by
  have h009 : rotationSpeedOf (11 / 25) = 9 / 1000 := by norm_num [rotationSpeedOf]
  have h011 : rotationSpeedOf (32 / 75) = 11 / 1000 := by norm_num [rotationSpeedOf]
  refine ⟨?_, ?_, fun r => rfl, fun r hf => rfl, h009, ?_, h011, ?_⟩
  · intro x h
    unfold emittedMove
    rw [if_pos h]
  · intro x h
    unfold emittedMove
    rw [if_neg (not_lt.mpr h)]
  · unfold emittedMove
    rw [if_neg (by rw [h009, abs_of_nonneg (by norm_num)]; norm_num)]
  · unfold emittedMove
    rw [if_pos (by rw [h011, abs_of_nonneg (by norm_num)]; norm_num), h011]

theorem rotation_deadzone_amended_witness :
    ((1 / 100 : ℚ) < |rotationSpeedOf 0| ∧ emittedMove 0 = rotationSpeedOf 0) ∧
    (|rotationSpeedOf (1 / 2)| ≤ 1 / 100 ∧ emittedMove (1 / 2) = 0) :=
  ⟨⟨by rw [show rotationSpeedOf 0 = 3 / 40 from by norm_num [rotationSpeedOf],
        abs_of_nonneg (by norm_num)]; norm_num,
    rotation_deadzone_amended.1 0
      (by rw [show rotationSpeedOf 0 = 3 / 40 from by norm_num [rotationSpeedOf],
        abs_of_nonneg (by norm_num)]; norm_num)⟩,
   ⟨by rw [show rotationSpeedOf (1 / 2) = 0 from by norm_num [rotationSpeedOf],
        abs_of_nonneg (by norm_num)]; norm_num,
    rotation_deadzone_amended.2.1 (1 / 2)
      (by rw [show rotationSpeedOf (1 / 2) = 0 from by norm_num [rotationSpeedOf],
        abs_of_nonneg (by norm_num)]; norm_num)⟩⟩

lemma bodyPhotoPaths_length : bodyPhotoPaths.length = 9 := by
  simp [bodyPhotoPaths, TOTAL_NUMBERED_PHOTOS]

/-- C8: photo overlay single-flight: a PINCH_START with no displayed photo
selects exactly one photo from the configured set (the uniform draw
`r ∈ [0,1)` is mapped to index `⌊r·9⌋`, which hits each of the 9 photos on
an interval of equal width 1/9); a PINCH_START with a photo displayed is a
no-op, so two PINCH_STARTs without an intervening PINCH_END keep the first
selection; a PINCH_END with a photo displayed closes it. -/
theorem photo_overlay_single_flight :
    (∀ r : ℚ, 0 ≤ r → r < 1 →
      randomPhotoIndex r < bodyPhotoPaths.length ∧
      handlePinch true r none = some (bodyPhotoPaths.getD (randomPhotoIndex r) "")) ∧
    (∀ (r : ℚ) (p : String), handlePinch true r (some p) = some p) ∧
    (∀ (r : ℚ) (p : String), handlePinch false r (some p) = none) ∧
    (∀ r1 r2 : ℚ, handlePinch true r2 (handlePinch true r1 none) = handlePinch true r1 none) ∧
    (∀ (i : ℕ) (r : ℚ), i < bodyPhotoPaths.length → 0 ≤ r → r < 1 →
      (randomPhotoIndex r = i ↔
        (i : ℚ) / (bodyPhotoPaths.length : ℚ) ≤ r ∧
        r < ((i : ℚ) + 1) / (bodyPhotoPaths.length : ℚ))) := by
  refine ⟨?_, ?_, ?_, ?_, ?_⟩
  · intro r hr0 hr1
    refine ⟨?_, by simp [handlePinch]⟩
    rw [randomPhotoIndex, bodyPhotoPaths_length]
    have : r * ((9 : ℕ) : ℚ) < ((9 : ℕ) : ℚ) := by
      push_cast
      nlinarith
    exact Nat.floor_lt (by positivity) |>.mpr this
  · intro r p
    simp [handlePinch]
  · intro r p
    simp [handlePinch]
  · intro r1 r2
    simp [handlePinch]
  · intro i r hi hr0 hr1
    have h9 : (0 : ℚ) < (bodyPhotoPaths.length : ℚ) := by
      rw [bodyPhotoPaths_length]; norm_num
    rw [randomPhotoIndex, Nat.floor_eq_iff (by positivity), div_le_iff₀ h9,
      lt_div_iff₀ h9]

theorem photo_overlay_single_flight_witness :
    (0 : ℚ) ≤ 1 / 2 ∧ (1 / 2 : ℚ) < 1 ∧
    (randomPhotoIndex (1 / 2) < bodyPhotoPaths.length ∧
      handlePinch true (1 / 2) none =
        some (bodyPhotoPaths.getD (randomPhotoIndex (1 / 2)) "")) :=
  ⟨by norm_num, by norm_num,
    photo_overlay_single_flight.1 (1 / 2) (by norm_num) (by norm_num)⟩

/-- C9: delegate fallback: when creation with the preferred GPU delegate
succeeds only GPU is attempted and no error is reported; when it fails the
setup retries with the CPU delegate, succeeds silently if that works, and
reports an error status only when the CPU fallback also fails. -/
theorem delegate_fallback (create : Delegate → Option ℕ) :
    (∀ rec, create Delegate.GPU = some rec →
      setupRecognizer Delegate.GPU create = (some rec, [Delegate.GPU], false)) ∧
    (create Delegate.GPU = none →
      (setupRecognizer Delegate.GPU create).2.1 = [Delegate.GPU, Delegate.CPU] ∧
      (∀ rec, create Delegate.CPU = some rec →
        setupRecognizer Delegate.GPU create = (some rec, [Delegate.GPU, Delegate.CPU], false)) ∧
      (create Delegate.CPU = none →
        setupRecognizer Delegate.GPU create = (none, [Delegate.GPU, Delegate.CPU], true))) := by
  refine ⟨fun rec h => by simp [setupRecognizer, h], fun h => ?_⟩
  refine ⟨?_, fun rec hc => by simp [setupRecognizer, h, hc],
    fun hc => by simp [setupRecognizer, h, hc]⟩
  cases hc : create Delegate.CPU <;> simp [setupRecognizer, h, hc]

theorem delegate_fallback_witness :
    (fun d => match d with
      | Delegate.GPU => (none : Option ℕ)
      | Delegate.CPU => some 1) Delegate.GPU = none ∧
    setupRecognizer Delegate.GPU
        (fun d => match d with
          | Delegate.GPU => (none : Option ℕ)
          | Delegate.CPU => some 1) =
      (some 1, [Delegate.GPU, Delegate.CPU], false) :=
  ⟨rfl, ((delegate_fallback _).2 rfl).2.1 1 rfl⟩

/-- C10: hand-loss invariants: on a processed frame with no detected hand
the stored PinchState is unchanged (so a true state stays true), no pinch
event is emitted (so the overlay keeps its photo) and rotation speed is
forced to exactly 0; on a later processed frame that detects a hand whose
pinch test is false while the stored state is true, a PINCH_END is emitted,
which closes a displayed photo. -/
theorem hand_loss_invariants :
    (∀ r : Bool, processFrame r none = ⟨r, none, none, 0⟩) ∧
    (∀ (sel : Option String) (rq : ℚ) (r : Bool),
      overlayAfter sel (processFrame r none).pinchEvent rq = sel) ∧
    (∀ hf : HandFrame, ¬ detectThreeFingerPinch hf.landmarks →
      (processFrame true (some hf)).pinchEvent = some false ∧
      (processFrame true (some hf)).pinchState = false) ∧
    (∀ (p : String) (rq : ℚ), overlayAfter (some p) (some false) rq = none) := by
  refine ⟨fun r => rfl, fun sel rq r => rfl, ?_, ?_⟩
  · intro hf h
    have hd : decide (detectThreeFingerPinch hf.landmarks) = false :=
      decide_eq_false h
    constructor <;> simp [processFrame, hd, pinchStep]
  · intro p rq
    simp [overlayAfter, handlePinch]

theorem hand_loss_invariants_witness :
    ¬ detectThreeFingerPinch
        (fun i => ⟨if i = 4 then 0 else 1, 0, 0⟩) ∧
    ((processFrame true
        (some ⟨fun i => ⟨if i = 4 then 0 else 1, 0, 0⟩, none⟩)).pinchEvent = some false ∧
      (processFrame true
        (some ⟨fun i => ⟨if i = 4 then 0 else 1, 0, 0⟩, none⟩)).pinchState = false) :=
  ⟨by rw [detectThreeFingerPinch_iff_distSq]; norm_num [distSq, pinchThreshold],
    hand_loss_invariants.2.2.1 ⟨fun i => ⟨if i = 4 then 0 else 1, 0, 0⟩, none⟩
      (by rw [detectThreeFingerPinch_iff_distSq]; norm_num [distSq, pinchThreshold])⟩

/-! ## Morph scheduler: per-frame position interpolation -/

noncomputable section

/-- A 3-vector of reals (x, y, z). -/
abbrev Vec3 := ℝ × ℝ × ℝ

/-- `THREE.Vector3.lerp`: move each component of `v` toward `target` by the
fraction `alpha`. -/
def lerp3 (v target : Vec3) (alpha : ℝ) : Vec3 :=
  (v.1 + (target.1 - v.1) * alpha,
   v.2.1 + (target.2.1 - v.2.1) * alpha,
   v.2.2 + (target.2.2 - v.2.2) * alpha)

/-- Euclidean distance between two 3-vectors. -/
def dist3 (p q : Vec3) : ℝ :=
  Real.sqrt ((p.1 - q.1) ^ 2 + (p.2.1 - q.2.1) ^ 2 + (p.2.2 - q.2.2) ^ 2)

/-- One `useFrame` position update of a photo ornament:
`currentPos.lerp(target, delta * (isFormed ? 0.8 * weight : 0.5))` with
`target` the formed or chaos position according to the mode. -/
def ornamentPosStep (isFormed : Bool) (weight : ℝ) (targetPos chaosPos v : Vec3)
    (delta : ℝ) : Vec3 :=
  lerp3 v (if isFormed then targetPos else chaosPos)
    (delta * (if isFormed then 0.8 * weight else 0.5))

/-- One `useFrame` position update of a christmas element:
`currentPos.lerp(target, delta * 1.5)`. -/
def elementPosStep (isFormed : Bool) (targetPos chaosPos v : Vec3)
    (delta : ℝ) : Vec3 :=
  lerp3 v (if isFormed then targetPos else chaosPos) (delta * 1.5)

/-- One `useFrame` position update of a fairy light:
`currentPos.lerp(target, delta * 2.0)`. -/
def lightPosStep (isFormed : Bool) (targetPos chaosPos v : Vec3)
    (delta : ℝ) : Vec3 :=
  lerp3 v (if isFormed then targetPos else chaosPos) (delta * 2.0)

/-- `THREE.MathUtils.lerp`. -/
def lerp (x y t : ℝ) : ℝ := (1 - t) * x + t * y

/-- `THREE.MathUtils.damp`: exponential approach,
`lerp(x, y, 1 - exp(-lambda * dt))`. -/
def damp (x y lambda dt : ℝ) : ℝ := lerp x y (1 - Real.exp (-lambda * dt))

/-- One `useFrame` update of the foliage progress scalar:
`uProgress = damp(uProgress, isFormed ? 1 : 0, 1.5, delta)`. -/
def foliageProgressStep (isFormed : Bool) (uProgress delta : ℝ) : ℝ :=
  damp uProgress (if isFormed then 1 else 0) 1.5 delta

/-- Ornament position after a sequence of frames with per-frame modes and
deltas. -/
def ornamentTrajectory (weight : ℝ) (targetPos chaosPos p0 : Vec3)
    (modes : ℕ → Bool) (deltas : ℕ → ℝ) : ℕ → Vec3
  | 0 => p0
  | n + 1 =>
    ornamentPosStep (modes n) weight targetPos chaosPos
      (ornamentTrajectory weight targetPos chaosPos p0 modes deltas n) (deltas n)

/-- Element position after a sequence of frames with per-frame modes and
deltas. -/
def elementTrajectory (targetPos chaosPos p0 : Vec3)
    (modes : ℕ → Bool) (deltas : ℕ → ℝ) : ℕ → Vec3
  | 0 => p0
  | n + 1 =>
    elementPosStep (modes n) targetPos chaosPos
      (elementTrajectory targetPos chaosPos p0 modes deltas n) (deltas n)

/-- Fairy-light position across frames with the mode held at FORMED and a
constant frame delta. -/
def lightFormedIter (targetPos chaosPos p0 : Vec3) (delta : ℝ) : ℕ → Vec3
  | 0 => p0
  | n + 1 =>
    lightPosStep true targetPos chaosPos (lightFormedIter targetPos chaosPos p0 delta n) delta

/-- Ornament position across frames with the mode held at FORMED and a
constant frame delta. -/
def ornamentFormedIter (weight : ℝ) (targetPos chaosPos p0 : Vec3) (delta : ℝ) :
    ℕ → Vec3
  | 0 => p0
  | n + 1 =>
    ornamentPosStep true weight targetPos chaosPos
      (ornamentFormedIter weight targetPos chaosPos p0 delta n) delta

/-- Foliage progress across frames with the mode held at FORMED and a
constant frame delta. -/
def foliageProgressIter (u0 delta : ℝ) : ℕ → ℝ
  | 0 => u0
  | n + 1 => foliageProgressStep true (foliageProgressIter u0 delta n) delta

lemma lerp3_zero (v target : Vec3) : lerp3 v target 0 = v := by
  simp [lerp3]

/-- Distance moved in one lerp step is `|alpha|` times the distance to the
target. -/
lemma dist3_lerp3_self (v target : Vec3) (alpha : ℝ) :
    dist3 (lerp3 v target alpha) v = |alpha| * dist3 v target := by
  unfold dist3 lerp3
  rw [← Real.sqrt_sq_eq_abs, ← Real.sqrt_mul (sq_nonneg alpha)]
  congr 1
  ring

/-- Distance to the target contracts by the factor `|1 - alpha|` in one lerp
step. -/
lemma dist3_lerp3_target (v target : Vec3) (alpha : ℝ) :
    dist3 (lerp3 v target alpha) target = |1 - alpha| * dist3 v target := by
  unfold dist3 lerp3
  rw [← Real.sqrt_sq_eq_abs, ← Real.sqrt_mul (sq_nonneg (1 - alpha))]
  congr 1
  ring

lemma continuous_lerp3 (target : Vec3) :
    Continuous fun p : Vec3 × ℝ => lerp3 p.1 target p.2 := by
  unfold lerp3
  fun_prop

lemma ornamentTrajectory_continuous (weight : ℝ) (targetPos chaosPos p0 : Vec3)
    (modes : ℕ → Bool) :
    ∀ n, Continuous fun deltas : ℕ → ℝ =>
      ornamentTrajectory weight targetPos chaosPos p0 modes deltas n := by
  intro n
  induction n with
  | zero => exact continuous_const
  | succ n ih =>
    have h : Continuous fun deltas : ℕ → ℝ =>
        ((ornamentTrajectory weight targetPos chaosPos p0 modes deltas n : Vec3),
          deltas n * (if modes n then 0.8 * weight else 0.5)) :=
      ih.prod_mk ((continuous_apply n).mul continuous_const)
    exact (continuous_lerp3 (if modes n then targetPos else chaosPos)).comp h

lemma elementTrajectory_continuous (targetPos chaosPos p0 : Vec3)
    (modes : ℕ → Bool) :
    ∀ n, Continuous fun deltas : ℕ → ℝ =>
      elementTrajectory targetPos chaosPos p0 modes deltas n := by
  intro n
  induction n with
  | zero => exact continuous_const
  | succ n ih =>
    have h : Continuous fun deltas : ℕ → ℝ =>
        ((elementTrajectory targetPos chaosPos p0 modes deltas n : Vec3),
          deltas n * 1.5) :=
      ih.prod_mk ((continuous_apply n).mul continuous_const)
    exact (continuous_lerp3 (if modes n then targetPos else chaosPos)).comp h

/-- C4: `currentPosition` never jumps on a mode change: a frame with zero
elapsed delta leaves the position unchanged under either mode, the distance
moved in one frame is proportional to the frame's delta (the update only
interpolates toward the active target, never assigning it), and the position
after any finite frame sequence — including back-to-back CHAOS→FORMED→CHAOS
mode flips before convergence — is a continuous function of the per-frame
delta inputs. -/
theorem currentPosition_continuity :
    (∀ (m : Bool) (weight : ℝ) (tp cp v : Vec3),
      ornamentPosStep m weight tp cp v 0 = v) ∧
    (∀ (m : Bool) (tp cp v : Vec3), elementPosStep m tp cp v 0 = v) ∧
    (∀ (m : Bool) (weight : ℝ) (tp cp v : Vec3) (d : ℝ),
      dist3 (ornamentPosStep m weight tp cp v d) v =
        |d * (if m then 0.8 * weight else 0.5)| * dist3 v (if m then tp else cp)) ∧
    (∀ (m : Bool) (tp cp v : Vec3) (d : ℝ),
      dist3 (elementPosStep m tp cp v d) v =
        |d * 1.5| * dist3 v (if m then tp else cp)) ∧
    (∀ (weight : ℝ) (tp cp p0 : Vec3) (modes : ℕ → Bool) (n : ℕ),
      Continuous fun deltas : ℕ → ℝ =>
        ornamentTrajectory weight tp cp p0 modes deltas n) ∧
    (∀ (tp cp p0 : Vec3) (modes : ℕ → Bool) (n : ℕ),
      Continuous fun deltas : ℕ → ℝ =>
        elementTrajectory tp cp p0 modes deltas n) := by
  refine ⟨?_, ?_, ?_, ?_, ?_, ?_⟩
  · intro m weight tp cp v
    simp [ornamentPosStep, lerp3, zero_mul]
  · intro m tp cp v
    simp [elementPosStep, lerp3, zero_mul]
  · intro m weight tp cp v d
    simpa [ornamentPosStep] using
      dist3_lerp3_self v (if m then tp else cp) (d * (if m then 0.8 * weight else 0.5))
  · intro m tp cp v d
    simpa [elementPosStep] using
      dist3_lerp3_self v (if m then tp else cp) (d * 1.5)
  · intro weight tp cp p0 modes n
    exact ornamentTrajectory_continuous weight tp cp p0 modes n
  · intro tp cp p0 modes n
    exact elementTrajectory_continuous tp cp p0 modes n

/-! ## Convergence of the FORMED morph -/

lemma geom_eventually_lt (c D ε : ℝ) (hc0 : 0 ≤ c) (hc1 : c < 1) (hε : 0 < ε) :
    ∃ N, ∀ n ≥ N, c ^ n * D < ε := by
  have h := (tendsto_pow_atTop_nhds_zero_of_lt_one hc0 hc1).mul_const D
  rw [zero_mul] at h
  obtain ⟨N, hN⟩ := Metric.tendsto_atTop.mp h ε hε
  refine ⟨N, fun n hn => ?_⟩
  have habs := hN n hn
  rw [Real.dist_eq, sub_zero] at habs
  exact lt_of_le_of_lt (le_abs_self _) habs

lemma lightFormedIter_dist (tp cp p0 : Vec3) (d : ℝ) (n : ℕ) :
    dist3 (lightFormedIter tp cp p0 d n) tp = |1 - d * 2.0| ^ n * dist3 p0 tp := by
  induction n with
  | zero => simp [lightFormedIter]
  | succ n ih =>
    have h := dist3_lerp3_target (lightFormedIter tp cp p0 d n) tp (d * 2.0)
    calc dist3 (lightFormedIter tp cp p0 d (n + 1)) tp
        = |1 - d * 2.0| * dist3 (lightFormedIter tp cp p0 d n) tp := by
          simpa [lightFormedIter, lightPosStep] using h
      _ = |1 - d * 2.0| ^ (n + 1) * dist3 p0 tp := by rw [ih]; ring

lemma ornamentFormedIter_dist (weight : ℝ) (tp cp p0 : Vec3) (d : ℝ) (n : ℕ) :
    dist3 (ornamentFormedIter weight tp cp p0 d n) tp =
      |1 - d * (0.8 * weight)| ^ n * dist3 p0 tp := by
  induction n with
  | zero => simp [ornamentFormedIter]
  | succ n ih =>
    have h := dist3_lerp3_target (ornamentFormedIter weight tp cp p0 d n) tp
      (d * (0.8 * weight))
    calc dist3 (ornamentFormedIter weight tp cp p0 d (n + 1)) tp
        = |1 - d * (0.8 * weight)| * dist3 (ornamentFormedIter weight tp cp p0 d n) tp := by
          simpa [ornamentFormedIter, ornamentPosStep] using h
      _ = |1 - d * (0.8 * weight)| ^ (n + 1) * dist3 p0 tp := by rw [ih]; ring

lemma foliageProgressIter_dist (u0 d : ℝ) (n : ℕ) :
    |foliageProgressIter u0 d n - 1| = Real.exp (-1.5 * d) ^ n * |u0 - 1| := by
  induction n with
  | zero => simp [foliageProgressIter]
  | succ n ih =>
    have key : foliageProgressIter u0 d (n + 1) - 1 =
        Real.exp (-1.5 * d) * (foliageProgressIter u0 d n - 1) := by
      simp only [foliageProgressIter, foliageProgressStep, damp, lerp, if_true]
      ring
    rw [key, abs_mul, ih, abs_of_pos (Real.exp_pos _)]
    ring

/-- C5 counterexample: the per-frame update is a forward-Euler lerp, so
"frames keep advancing" does not suffice for convergence: a fairy light
(rate 2.0) updated with constant frame delta 1 starting one unit from its
target keeps distance exactly 1 from the target forever — the distance never
falls below ε = 1/2 however much time elapses. -/
theorem formed_convergence_counterexample :
    ¬ (∀ ε : ℝ, 0 < ε → ∃ N, ∀ n ≥ N,
        dist3 (lightFormedIter (0, 0, 0) (0, 0, 0) (1, 0, 0) 1 n) (0, 0, 0) < ε) := by
  intro h
  obtain ⟨N, hN⟩ := h (1 / 2) (by norm_num)
  have h1 := hN N le_rfl
  have key : dist3 (lightFormedIter (0, 0, 0) (0, 0, 0) (1, 0, 0) 1 N) (0, 0, 0) = 1 := by
    rw [lightFormedIter_dist]
    have habs : |1 - (1 : ℝ) * 2.0| = 1 := by norm_num
    rw [habs, one_pow, one_mul]
    show Real.sqrt (((1 : ℝ) - 0) ^ 2 + ((0 : ℝ) - 0) ^ 2 + ((0 : ℝ) - 0) ^ 2) = 1
    norm_num
  rw [key] at h1
  norm_num at h1

/-- C5 (amended): with the scene mode held at FORMED and a constant frame
delta whose product with the category's damping rate lies in (0, 2), every
instance's distance to its target eventually falls below any ε > 0 (fairy
lights, rate 2.0; photo ornaments, rate 0.8·weight); the foliage progress
scalar, which uses exponential damping rather than a raw lerp, converges to
1 for every positive frame delta with no upper bound. Frame sequences with
delta·rate ≥ 2 are excluded — the unconditional claim fails for them. -/
theorem formed_convergence_amended :
    (∀ (tp cp p0 : Vec3) (d : ℝ), 0 < d * 2.0 → d * 2.0 < 2 →
      ∀ ε : ℝ, 0 < ε → ∃ N, ∀ n ≥ N,
        dist3 (lightFormedIter tp cp p0 d n) tp < ε) ∧
    (∀ (weight : ℝ) (tp cp p0 : Vec3) (d : ℝ),
      0 < d * (0.8 * weight) → d * (0.8 * weight) < 2 →
      ∀ ε : ℝ, 0 < ε → ∃ N, ∀ n ≥ N,
        dist3 (ornamentFormedIter weight tp cp p0 d n) tp < ε) ∧
    (∀ u0 d : ℝ, 0 < d → ∀ ε : ℝ, 0 < ε → ∃ N, ∀ n ≥ N,
        |foliageProgressIter u0 d n - 1| < ε) := by
  refine ⟨?_, ?_, ?_⟩
  · intro tp cp p0 d h0 h2 ε hε
    have habs : |1 - d * 2.0| < 1 := abs_lt.mpr ⟨by linarith, by linarith⟩
    obtain ⟨N, hN⟩ := geom_eventually_lt _ (dist3 p0 tp) ε (abs_nonneg _) habs hε
    exact ⟨N, fun n hn => by rw [lightFormedIter_dist]; exact hN n hn⟩
  · intro weight tp cp p0 d h0 h2 ε hε
    have habs : |1 - d * (0.8 * weight)| < 1 := abs_lt.mpr ⟨by linarith, by linarith⟩
    obtain ⟨N, hN⟩ := geom_eventually_lt _ (dist3 p0 tp) ε (abs_nonneg _) habs hε
    exact ⟨N, fun n hn => by rw [ornamentFormedIter_dist]; exact hN n hn⟩
  · intro u0 d hd ε hε
    have hc1 : Real.exp (-1.5 * d) < 1 := by
      rw [Real.exp_lt_one_iff]
      nlinarith
    obtain ⟨N, hN⟩ :=
      geom_eventually_lt _ |u0 - 1| ε (Real.exp_pos _).le hc1 hε
    exact ⟨N, fun n hn => by rw [foliageProgressIter_dist]; exact hN n hn⟩

theorem formed_convergence_amended_witness :
    (0 : ℝ) < (1 / 4 : ℝ) * 2.0 ∧ (1 / 4 : ℝ) * 2.0 < 2 ∧ (0 : ℝ) < 1 / 10 ∧
    (∃ N, ∀ n ≥ N,
      dist3 (lightFormedIter (0, 0, 0) (0, 0, 0) (1, 0, 0) (1 / 4) n) (0, 0, 0) < 1 / 10) :=
  ⟨by norm_num, by norm_num, by norm_num,
    formed_convergence_amended.1 (0, 0, 0) (0, 0, 0) (1, 0, 0) (1 / 4)
      (by norm_num) (by norm_num) (1 / 10) (by norm_num)⟩

/-! ## Scene object pool: position generation -/

/-- `CONFIG.tree.height`. -/
def treeHeight : ℝ := 22

/-- `CONFIG.tree.radius`. -/
def treeRadius : ℝ := 9

/-- `getTreePosition` from App.tsx, as a function of the three uniform draws
`u` (height), `v` (azimuth fraction) and `w` (radial fraction). -/
def getTreePosition (u v w : ℝ) : Vec3 :=
  let y := u * treeHeight - treeHeight / 2
  let normalizedY := (y + treeHeight / 2) / treeHeight
  let currentRadius := treeRadius * (1 - normalizedY)
  let theta := v * (Real.pi * 2)
  let r := w * currentRadius
  (r * Real.cos theta, y, r * Real.sin theta)

/-- The cone radius at height `y`: `R * (1 - (y + H/2)/H)` — the right-hand
side of the spec's containment formula. -/
def coneRadiusAt (y : ℝ) : ℝ :=
  treeRadius * (1 - (y + treeHeight / 2) / treeHeight)

/-- The radial (horizontal) distance of a point from the tree axis:
`sqrt(x² + z²)` — the left-hand side of the spec's containment formula. -/
def radialDistance (p : Vec3) : ℝ := Real.sqrt (p.1 ^ 2 + p.2.2 ^ 2)

/-- A photo ornament's target position (`PhotoOrnaments` data): at the cone
surface radius plus a 0.5 offset. -/
def ornamentTargetPos (u v : ℝ) : Vec3 :=
  let y := u * treeHeight - treeHeight / 2
  let currentRadius := treeRadius * (1 - (y + treeHeight / 2) / treeHeight) + 0.5
  let theta := v * (Real.pi * 2)
  (currentRadius * Real.cos theta, y, currentRadius * Real.sin theta)

/-- A christmas element's target position (`ChristmasElements` data): at 0.95
times the cone surface radius. -/
def elementTargetPos (u v : ℝ) : Vec3 :=
  let y := u * treeHeight - treeHeight / 2
  let currentRadius := treeRadius * (1 - (y + treeHeight / 2) / treeHeight) * 0.95
  let theta := v * (Real.pi * 2)
  (currentRadius * Real.cos theta, y, currentRadius * Real.sin theta)

/-- A fairy light's target position (`FairyLights` data): at the cone surface
radius plus a 0.3 offset. -/
def lightTargetPos (u v : ℝ) : Vec3 :=
  let y := u * treeHeight - treeHeight / 2
  let currentRadius := treeRadius * (1 - (y + treeHeight / 2) / treeHeight) + 0.3
  let theta := v * (Real.pi * 2)
  (currentRadius * Real.cos theta, y, currentRadius * Real.sin theta)

/-- A photo ornament's chaos position: `(Math.random()-0.5)*70` per axis. -/
def ornamentChaosPos (a b c : ℝ) : Vec3 :=
  ((a - 0.5) * 70, (b - 0.5) * 70, (c - 0.5) * 70)

/-- A christmas element's chaos position: `(Math.random()-0.5)*60` per axis. -/
def elementChaosPos (a b c : ℝ) : Vec3 :=
  ((a - 0.5) * 60, (b - 0.5) * 60, (c - 0.5) * 60)

/-- A fairy light's chaos position: `(Math.random()-0.5)*60` per axis. -/
def lightChaosPos (a b c : ℝ) : Vec3 :=
  ((a - 0.5) * 60, (b - 0.5) * 60, (c - 0.5) * 60)

/-- Modelled from the spec: the foliage chaos positions come from the
external maath `random.inSphere` call (uniform inside a sphere of radius
25), which is not part of this repository; `s` is the uniform radial draw
(cube-rooted for uniformity in the ball) and `phi`, `psi` the angular
draws. -/
def foliageChaosPos (s phi psi : ℝ) : Vec3 :=
  (25 * s ^ ((1 : ℝ) / 3) * (Real.cos phi * Real.sin psi),
   25 * s ^ ((1 : ℝ) / 3) * Real.cos psi,
   25 * s ^ ((1 : ℝ) / 3) * (Real.sin phi * Real.sin psi))

lemma radialDistance_polar (R y θ : ℝ) (hR : 0 ≤ R) :
    radialDistance (R * Real.cos θ, y, R * Real.sin θ) = R := by
  unfold radialDistance
  have h : (R * Real.cos θ) ^ 2 + (R * Real.sin θ) ^ 2 = R ^ 2 := by
    have hθ := Real.sin_sq_add_cos_sq θ
    linear_combination R ^ 2 * hθ
  show Real.sqrt ((R * Real.cos θ) ^ 2 + (R * Real.sin θ) ^ 2) = R
  rw [h, Real.sqrt_sq hR]

lemma coneRadiusAt_height (u : ℝ) :
    coneRadiusAt (u * treeHeight - treeHeight / 2) = treeRadius * (1 - u) := by
  unfold coneRadiusAt treeHeight treeRadius
  ring

/-- C6 counterexample: a fairy light generated with height draw 0 and
azimuth draw 0 has target position (9.3, -11, 0), whose radial distance
9.3 exceeds the cone radius 9 at that height by the fixed offset 0.3 —
far beyond floating tolerance — refuting the claim that every category's
target position lies within the cone. -/
theorem population_cone_counterexample :
    ¬ radialDistance (lightTargetPos 0 0) ≤ coneRadiusAt (lightTargetPos 0 0).2.1 := by
  have hp : lightTargetPos 0 0 = (9.3, -11, 0) := by
    unfold lightTargetPos treeHeight treeRadius
    norm_num
  rw [hp]
  have hrad : radialDistance ((9.3 : ℝ), (-11 : ℝ), (0 : ℝ)) = 9.3 := by
    unfold radialDistance
    rw [show ((9.3 : ℝ)) ^ 2 + (0 : ℝ) ^ 2 = 9.3 ^ 2 by ring, Real.sqrt_sq (by norm_num)]
  have hcone : coneRadiusAt ((9.3 : ℝ), (-11 : ℝ), (0 : ℝ)).2.1 = 9 := by
    unfold coneRadiusAt treeHeight treeRadius
    norm_num
  rw [hrad, hcone]
  norm_num

/-- C6 (amended): after pool population every chaos position lies within its
category's configured bound (cube half-width 35 per axis for ornaments, 30
for elements and lights, and — for the externally drawn foliage — the
sphere of radius 25), the foliage and element targets lie within the cone
`sqrt(x²+z²) ≤ R·(1-(y+H/2)/H)` with H = 22, R = 9, while the
surface-hugging fairy-light and ornament targets sit exactly at the cone
radius plus their configured radial offsets 0.3 and 0.5 respectively —
slightly outside the cone, not within it. -/
theorem population_bounds_amended :
    (∀ u v w : ℝ, 0 ≤ u → u ≤ 1 → 0 ≤ w → w ≤ 1 →
      radialDistance (getTreePosition u v w) ≤
        coneRadiusAt (getTreePosition u v w).2.1) ∧
    (∀ u v : ℝ, 0 ≤ u → u ≤ 1 →
      radialDistance (elementTargetPos u v) ≤
        coneRadiusAt (elementTargetPos u v).2.1) ∧
    (∀ u v : ℝ, 0 ≤ u → u ≤ 1 →
      radialDistance (lightTargetPos u v) =
        coneRadiusAt (lightTargetPos u v).2.1 + 0.3) ∧
    (∀ u v : ℝ, 0 ≤ u → u ≤ 1 →
      radialDistance (ornamentTargetPos u v) =
        coneRadiusAt (ornamentTargetPos u v).2.1 + 0.5) ∧
    (∀ a b c : ℝ, 0 ≤ a → a ≤ 1 → 0 ≤ b → b ≤ 1 → 0 ≤ c → c ≤ 1 →
      |(ornamentChaosPos a b c).1| ≤ 35 ∧ |(ornamentChaosPos a b c).2.1| ≤ 35 ∧
        |(ornamentChaosPos a b c).2.2| ≤ 35) ∧
    (∀ a b c : ℝ, 0 ≤ a → a ≤ 1 → 0 ≤ b → b ≤ 1 → 0 ≤ c → c ≤ 1 →
      |(elementChaosPos a b c).1| ≤ 30 ∧ |(elementChaosPos a b c).2.1| ≤ 30 ∧
        |(elementChaosPos a b c).2.2| ≤ 30) ∧
    (∀ a b c : ℝ, 0 ≤ a → a ≤ 1 → 0 ≤ b → b ≤ 1 → 0 ≤ c → c ≤ 1 →
      |(lightChaosPos a b c).1| ≤ 30 ∧ |(lightChaosPos a b c).2.1| ≤ 30 ∧
        |(lightChaosPos a b c).2.2| ≤ 30) ∧
    (∀ s phi psi : ℝ, 0 ≤ s → s ≤ 1 →
      dist3 (foliageChaosPos s phi psi) (0, 0, 0) ≤ 25) := by
  have hR9 : treeRadius = 9 := rfl
  refine ⟨?_, ?_, ?_, ?_, ?_, ?_, ?_, ?_⟩
  · intro u v w hu0 hu1 hw0 hw1
    have hcr : (0 : ℝ) ≤ treeRadius * (1 - u) := by rw [hR9]; nlinarith
    have hr : (0 : ℝ) ≤ w * (treeRadius * (1 - u)) := mul_nonneg hw0 hcr
    have hp : getTreePosition u v w =
        ((w * (treeRadius * (1 - u))) * Real.cos (v * (Real.pi * 2)),
          u * treeHeight - treeHeight / 2,
          (w * (treeRadius * (1 - u))) * Real.sin (v * (Real.pi * 2))) := by
      unfold getTreePosition treeHeight treeRadius
      norm_num
    rw [hp, radialDistance_polar _ _ _ hr, coneRadiusAt_height]
    nlinarith
  · intro u v hu0 hu1
    have hcr : (0 : ℝ) ≤ treeRadius * (1 - u) * 0.95 := by rw [hR9]; nlinarith
    have hp : elementTargetPos u v =
        ((treeRadius * (1 - u) * 0.95) * Real.cos (v * (Real.pi * 2)),
          u * treeHeight - treeHeight / 2,
          (treeRadius * (1 - u) * 0.95) * Real.sin (v * (Real.pi * 2))) := by
      unfold elementTargetPos treeHeight treeRadius
      norm_num
    rw [hp, radialDistance_polar _ _ _ hcr, coneRadiusAt_height]
    rw [hR9]
    nlinarith
  · intro u v hu0 hu1
    have hcr : (0 : ℝ) ≤ treeRadius * (1 - u) + 0.3 := by rw [hR9]; nlinarith
    have hp : lightTargetPos u v =
        ((treeRadius * (1 - u) + 0.3) * Real.cos (v * (Real.pi * 2)),
          u * treeHeight - treeHeight / 2,
          (treeRadius * (1 - u) + 0.3) * Real.sin (v * (Real.pi * 2))) := by
      unfold lightTargetPos treeHeight treeRadius
      norm_num
    rw [hp, radialDistance_polar _ _ _ hcr, coneRadiusAt_height]
  · intro u v hu0 hu1
    have hcr : (0 : ℝ) ≤ treeRadius * (1 - u) + 0.5 := by rw [hR9]; nlinarith
    have hp : ornamentTargetPos u v =
        ((treeRadius * (1 - u) + 0.5) * Real.cos (v * (Real.pi * 2)),
          u * treeHeight - treeHeight / 2,
          (treeRadius * (1 - u) + 0.5) * Real.sin (v * (Real.pi * 2))) := by
      unfold ornamentTargetPos treeHeight treeRadius
      norm_num
    rw [hp, radialDistance_polar _ _ _ hcr, coneRadiusAt_height]
  · intro a b c ha0 ha1 hb0 hb1 hc0 hc1
    refine ⟨abs_le.mpr ⟨by simp [ornamentChaosPos]; nlinarith,
        by simp [ornamentChaosPos]; nlinarith⟩,
      abs_le.mpr ⟨by simp [ornamentChaosPos]; nlinarith,
        by simp [ornamentChaosPos]; nlinarith⟩,
      abs_le.mpr ⟨by simp [ornamentChaosPos]; nlinarith,
        by simp [ornamentChaosPos]; nlinarith⟩⟩
  · intro a b c ha0 ha1 hb0 hb1 hc0 hc1
    refine ⟨abs_le.mpr ⟨by simp [elementChaosPos]; nlinarith,
        by simp [elementChaosPos]; nlinarith⟩,
      abs_le.mpr ⟨by simp [elementChaosPos]; nlinarith,
        by simp [elementChaosPos]; nlinarith⟩,
      abs_le.mpr ⟨by simp [elementChaosPos]; nlinarith,
        by simp [elementChaosPos]; nlinarith⟩⟩
  · intro a b c ha0 ha1 hb0 hb1 hc0 hc1
    refine ⟨abs_le.mpr ⟨by simp [lightChaosPos]; nlinarith,
        by simp [lightChaosPos]; nlinarith⟩,
      abs_le.mpr ⟨by simp [lightChaosPos]; nlinarith,
        by simp [lightChaosPos]; nlinarith⟩,
      abs_le.mpr ⟨by simp [lightChaosPos]; nlinarith,
        by simp [lightChaosPos]; nlinarith⟩⟩
  · intro s phi psi hs0 hs1
    have ht0 : (0 : ℝ) ≤ s ^ ((1 : ℝ) / 3) := Real.rpow_nonneg hs0 _
    have ht1 : s ^ ((1 : ℝ) / 3) ≤ 1 := Real.rpow_le_one hs0 hs1 (by norm_num)
    have hkey : dist3 (foliageChaosPos s phi psi) (0, 0, 0) =
        25 * s ^ ((1 : ℝ) / 3) := by
      unfold dist3 foliageChaosPos
      have hφ := Real.sin_sq_add_cos_sq phi
      have hψ := Real.sin_sq_add_cos_sq psi
      have hin : (25 * s ^ ((1 : ℝ) / 3) * (Real.cos phi * Real.sin psi) - 0) ^ 2 +
          (25 * s ^ ((1 : ℝ) / 3) * Real.cos psi - 0) ^ 2 +
          (25 * s ^ ((1 : ℝ) / 3) * (Real.sin phi * Real.sin psi) - 0) ^ 2 =
          (25 * s ^ ((1 : ℝ) / 3)) ^ 2 := by
        linear_combination (25 * s ^ ((1 : ℝ) / 3)) ^ 2 * (Real.sin psi) ^ 2 * hφ +
          (25 * s ^ ((1 : ℝ) / 3)) ^ 2 * hψ
      rw [hin, Real.sqrt_sq (by positivity)]
    rw [hkey]
    nlinarith

theorem population_bounds_amended_witness :
    ((0 : ℝ) ≤ 1 / 2 ∧ (1 / 2 : ℝ) ≤ 1 ∧ (0 : ℝ) ≤ 1 / 3 ∧ (1 / 3 : ℝ) ≤ 1 ∧
      radialDistance (getTreePosition (1 / 2) 0 (1 / 3)) ≤
        coneRadiusAt (getTreePosition (1 / 2) 0 (1 / 3)).2.1) ∧
    (radialDistance (lightTargetPos (1 / 2) 0) =
      coneRadiusAt (lightTargetPos (1 / 2) 0).2.1 + 0.3) :=
  ⟨⟨by norm_num, by norm_num, by norm_num, by norm_num,
      population_bounds_amended.1 (1 / 2) 0 (1 / 3)
        (by norm_num) (by norm_num) (by norm_num) (by norm_num)⟩,
    population_bounds_amended.2.2.1 (1 / 2) 0 (by norm_num) (by norm_num)⟩

end

end ChristmasTree
